import Mathlib

/-!
Shallow embedding of `src/locustfile.py`, a Locust load-testing harness for a
Product API. Pure validation logic (status/body → verdict) is embedded as Lean
functions; the process-global random stream of Python's `random` module is
embedded as explicit state passing. HTTP statuses are naturals, response bodies
are an inductive, and every request issued through Locust's client records a
`Verdict` (success or failure with a reason string).
-/

namespace Locustfile

/-- The outcome a recorded request verdict can have: success, or failure with a
reason string (the argument of `response.failure(...)`, or the default
status-derived error). -/
inductive Outcome where
  | success : Outcome
  | failure : String → Outcome
deriving DecidableEq, Repr

/-- A recorded verdict: the metric name the request was reported under, and its
outcome. -/
structure Verdict where
  name : String
  outcome : Outcome
deriving DecidableEq, Repr

/-- Whether a verdict is a success. -/
def Verdict.isSuccess (v : Verdict) : Bool :=
  match v.outcome with
  | .success => true
  | .failure _ => false

/-- What the task body did inside a `catch_response=True` block: called
`response.success()`, called `response.failure(reason)`, or returned without
calling either. -/
inductive ManualResult where
  | success : ManualResult
  | failure : String → ManualResult
  | unmarked : ManualResult
deriving DecidableEq, Repr

/-- Modelled from the Locust library (an external collaborator of this
repository): `requests.Response.raise_for_status` raises exactly for status
codes in 4xx/5xx, so a status of 400 or above counts as an HTTP error. -/
def statusIsHttpError (status : Nat) : Bool :=
  400 ≤ status

/-- Modelled from the Locust library (an external collaborator of this
repository): the verdict recorded when a `catch_response=True` block exits.
If the block marked the response manually via `success()`/`failure(...)`,
that manual result is reported; if it marked nothing, Locust falls back to
the default behaviour of letting the response code determine the outcome
(failure for 4xx/5xx, success otherwise). -/
def reportCatchResponse (name : String) (status : Nat) : ManualResult → Verdict
  | .success => ⟨name, .success⟩
  | .failure reason => ⟨name, .failure reason⟩
  | .unmarked =>
      if statusIsHttpError status then
        ⟨name, .failure ("HTTPError " ++ toString status)⟩
      else
        ⟨name, .success⟩

/-- Modelled from the Locust library (an external collaborator of this
repository): the verdict automatically recorded for a request made without
`catch_response` — failure for 4xx/5xx, success otherwise. -/
def plainAutoVerdict (name : String) (status : Nat) : Verdict :=
  if statusIsHttpError status then
    ⟨name, .failure ("HTTPError " ++ toString status)⟩
  else
    ⟨name, .success⟩

/-- A decoded response body for a GET on a product: either text that fails to
parse as JSON, or a JSON object whose `product_id` field is the given optional
integer (`none` when the field is absent). -/
inductive Body where
  | malformed : Body
  | json : Option Int → Body
deriving DecidableEq, Repr

/-- Python rendering of `data.get("product_id")` inside an f-string: an absent
field prints as `None`, an integer prints as its decimal form. -/
def pyShow : Option Int → String
  | none => "None"
  | some n => toString n

/-- A request the harness can issue, identified by kind and target resource. -/
inductive Req where
  | post : Int → Req
  | get : Int → Req
  | healthz : Req
deriving DecidableEq, Repr

/-- The state of Python's `random` module as used by the source
(`import random`, source line 5): a single process-global stream of draws,
shared by every virtual user, together with the position reached in it. No
call ever seeds it in the source. -/
structure GlobalRNG where
  stream : Nat → Nat
  pos : Nat

/-- Consume one draw from the shared global stream. -/
def GlobalRNG.next (g : GlobalRNG) : Nat × GlobalRNG :=
  (g.stream g.pos, ⟨g.stream, g.pos + 1⟩)

/-- `random.choice(xs)`: one shared-stream draw reduced modulo the list
length picks an element (the stream is the model's source of uniformity). -/
def pyChoice (xs : List Int) (g : GlobalRNG) : Int × GlobalRNG :=
  let (n, g1) := g.next
  (xs.getD (n % xs.length) 0, g1)

/-- `random.uniform(a, b)` as used by Locust's `between(a, b)`: an affine map
sending a unit draw `u ∈ [0, 1]` to `a + (b - a) * u`, evaluated afresh on
every call with a fresh unit draw. -/
def pyUniform (a b u : ℚ) : ℚ := a + (b - a) * u

/-- Modelled from the Locust library (an external collaborator of this
repository): `between(a, b)` is a wait-time model whose every call draws
`random.uniform(a, b)` anew; nothing is cached between calls. -/
def between (a b u : ℚ) : ℚ := pyUniform a b u

namespace ProductAPIUser

/-- `wait_time = between(0.5, 2)` (source line 16): the delay before the next
behavior, as a function of the fresh unit draw of that call. -/
def wait_time (u : ℚ) : ℚ := between (1/2) 2 u

/-- Metric name used by `create_product` (source line 45). -/
def postName : String := "/products/[id]/details [POST]"

/-- Metric name used by `read_product` (source line 64). -/
def getName : String := "/products/[id] [GET]"

/-- Metric name used by the read half of `read_write_same_product`
(source line 106). -/
def rawGetName : String := "/products/[id] [GET] (after write)"

/-- `PRODUCT_IDS = list(range(1, 21))` (source line 19). -/
def PRODUCT_IDS : List Int := (List.range 20).map (fun n => (n : Int) + 1)

/-- The id drawn by `read_product` (source line 59):
`random.choice(self.PRODUCT_IDS)` against the shared global stream. -/
def read_product_pick (g : GlobalRNG) : Int × GlobalRNG :=
  pyChoice PRODUCT_IDS g

/-- The first id `read_product` picks when the shared global stream has
already been advanced `k` positions by other users' draws. -/
def pickAfterOthers (stream : Nat → Nat) (k : Nat) : Int :=
  (read_product_pick ⟨stream, k⟩).1

/-- The manual marking performed by `create_product` (source lines 47–51):
a 204 is marked success only when `log` is true (otherwise nothing is
marked); any other status is marked failure with the observed status. -/
def create_product_mark (log : Bool) (status : Nat) : ManualResult :=
  if status = 204 then
    if log then .success else .unmarked
  else
    .failure ("Expected 204, got " ++ toString status)

/-- The verdict recorded for one `create_product(product_id, log)` call
(source lines 41–51), via the `catch_response` reporting rules. -/
def create_product_verdict (log : Bool) (status : Nat) : Verdict :=
  reportCatchResponse postName status (create_product_mark log status)

/-- The manual marking performed by `read_product` (source lines 66–80) for a
requested `product_id`, given the response status and decoded body: 200 with a
matching id is success, 200 with a mismatched id is a failure naming expected
and observed, 200 with an unparseable body is failure "Invalid JSON response",
404 is success, and anything else is an unexpected-status failure. -/
def read_product_mark (product_id : Int) (status : Nat) (body : Body) : ManualResult :=
  if status = 200 then
    match body with
    | .malformed => .failure "Invalid JSON response"
    | .json pid =>
        if pid = some product_id then .success
        else .failure ("Product ID mismatch: expected " ++ toString product_id
            ++ ", got " ++ pyShow pid)
  else if status = 404 then .success
  else .failure ("Unexpected status: " ++ toString status)

/-- The verdict recorded for one `read_product` execution requesting
`product_id`, given the response status and body. -/
def read_product_verdict (product_id : Int) (status : Nat) (body : Body) : Verdict :=
  reportCatchResponse getName status (read_product_mark product_id status body)

/-- The manual marking performed on the read half of
`read_write_same_product` (source lines 108–112): success exactly on 200,
otherwise failure reporting the observed status. -/
def raw_read_mark (status : Nat) : ManualResult :=
  if status = 200 then .success
  else .failure ("Read after write failed: " ++ toString status)

/-- The verdict recorded for the read half of `read_write_same_product`. -/
def raw_read_verdict (status : Nat) : Verdict :=
  reportCatchResponse rawGetName status (raw_read_mark status)

/-- The request sequence issued by one `read_write_same_product` execution for
a chosen `product_id` (source lines 97–107): a write to the id immediately
followed by a read of the same id. -/
def read_write_same_product_requests (product_id : Int) : List Req :=
  [Req.post product_id, Req.get product_id]

/-- The two verdicts recorded by one `read_write_same_product` execution: the
write is a `create_product` with `log=False` (source line 100), the read is
checked by `raw_read_mark`. -/
def read_write_same_product_verdicts (writeStatus readStatus : Nat) : Verdict × Verdict :=
  (create_product_verdict false writeStatus, raw_read_verdict readStatus)

/-- The ids seeded by `on_start` (source line 24): `range(1, 6)`. -/
def on_start_seed_ids : List Nat := (List.range 5).map (fun n => n + 1)

/-- The verdicts recorded by the warm-up writes of `on_start` (source
lines 21–25): one `create_product(product_id, log=False)` per seed id, where
`status i` is the response status the write to id `i` received. -/
def on_start_verdicts (status : Nat → Nat) : List Verdict :=
  on_start_seed_ids.map (fun i => create_product_verdict false (status i))

/-- The names of the four `@task`-decorated behaviors of `ProductAPIUser`. -/
inductive TaskName where
  | read_product : TaskName
  | write_product : TaskName
  | read_write_same_product : TaskName
  | health_check : TaskName
deriving DecidableEq, Repr

/-- The behavior catalog declared by the `@task(weight)` decorators (source
lines 53, 82, 91, 114): read 7, write 3, read-after-write 1, health 1. -/
def taskWeights : List (TaskName × Nat) :=
  [(.read_product, 7), (.write_product, 3),
   (.read_write_same_product, 1), (.health_check, 1)]

/-- Modelled from the Locust library (an external collaborator of this
repository): the user's task list contains each `@task(w)` method repeated
`w` times, and each loop iteration picks one entry uniformly at random. -/
def tasksList : List TaskName :=
  (taskWeights.map (fun wt => List.replicate wt.2 wt.1)).flatten

/-- One behavior selection: a uniform draw over the task list picks the entry
at the drawn index. -/
def selectTask (i : Fin 12) : TaskName :=
  tasksList.getD i.val .read_product

/-- A Python exception escaping a task body. -/
inductive PyError where
  | attributeError : String → PyError
deriving DecidableEq, Repr

/-- One `health_check` execution (source lines 114–119), returning the
automatically recorded verdict together with the exception the task body
raises, if any. The GET is issued without `catch_response`, so the response
object is a plain `requests.Response`; on a non-200 status the code calls
`response.failure(...)`, a method that does not exist on that object, raising
`AttributeError`. -/
def health_check (status : Nat) : Verdict × Option PyError :=
  (plainAutoVerdict "/healthz" status,
   if status = 200 then none
   else some (.attributeError "Response object has no attribute failure"))

/-- The sequence of think-time delays of one user across loop iterations,
where `us n` is the fresh unit draw consumed by the `n`-th call of
`wait_time`: each call re-evaluates `between(0.5, 2)` on its own draw. -/
def delays (us : ℕ → ℚ) (n : ℕ) : ℚ := wait_time (us n)

end ProductAPIUser

namespace FastProductAPIUser

/-- `wait_time = between(0.1, 0.5)` (source line 127): the fast profile's
delay, as a function of the fresh unit draw of that call. -/
def wait_time (u : ℚ) : ℚ := between (1/10) (1/2) u

/-- The sequence of think-time delays of one fast-profile user across loop
iterations, `us n` being the fresh unit draw of the `n`-th call. -/
def delays (us : ℕ → ℚ) (n : ℕ) : ℚ := wait_time (us n)

end FastProductAPIUser

/-- `true` when `needle` occurs as a contiguous substring of `hay`: used to
state which phrases a failure reason does or does not name. -/
def strHasSub (needle hay : String) : Bool :=
  (List.range (hay.toList.length + 1)).any fun i =>
    needle.toList.isPrefixOf (hay.toList.drop i)

end Locustfile

namespace Locustfile

open ProductAPIUser

/-- Claim C1: the read-after-write behavior writes to a ResourceID and
immediately reads that same ResourceID; the read verdict is success exactly
when the read returns status 200, so a 404 on this read is a failure, while
the plain-read behavior classifies a 404 as success. -/
theorem claim_C1 (pid : Int) (s : Nat) (body : Body) :
    read_write_same_product_requests pid = [Req.post pid, Req.get pid]
    ∧ ((raw_read_verdict s).isSuccess = true ↔ s = 200)
    ∧ (raw_read_verdict 404).isSuccess = false
    ∧ (read_product_verdict pid 404 body).isSuccess = true := by
  refine ⟨rfl, ?_, by decide, ?_⟩
  · by_cases h : s = 200 <;>
      simp [raw_read_verdict, raw_read_mark, reportCatchResponse, Verdict.isSuccess, h]
  · simp [read_product_verdict, read_product_mark, reportCatchResponse, Verdict.isSuccess]

/-- Witness for C1 at concrete statuses 200 and 404. -/
theorem claim_C1_witness :
    (raw_read_verdict 200).isSuccess = true
    ∧ (raw_read_verdict 404).isSuccess = false
    ∧ (read_product_verdict 7 404 Body.malformed).isSuccess = true :=
  ⟨(claim_C1 7 200 Body.malformed).2.1.mpr rfl,
   (claim_C1 7 200 Body.malformed).2.2.1,
   (claim_C1 7 404 Body.malformed).2.2.2⟩

/-- Claim C2: a plain read requesting id `r` succeeds on a 200 whose body
carries `product_id = r` and on any 404; a 200 whose `product_id` differs
from `r` fails with a reason naming both the expected and the observed
value. -/
theorem claim_C2 (r : Int) (pid : Option Int) (body : Body) :
    (read_product_verdict r 200 (Body.json (some r))).isSuccess = true
    ∧ (read_product_verdict r 404 body).isSuccess = true
    ∧ (pid ≠ some r →
        read_product_verdict r 200 (Body.json pid)
          = ⟨getName, .failure ("Product ID mismatch: expected " ++ toString r
              ++ ", got " ++ pyShow pid)⟩)
    ∧ ((read_product_verdict r 200 (Body.json pid)).isSuccess = true ↔ pid = some r) := by
  refine ⟨?_, ?_, ?_, ?_⟩
  · simp [read_product_verdict, read_product_mark, reportCatchResponse, Verdict.isSuccess]
  · simp [read_product_verdict, read_product_mark, reportCatchResponse, Verdict.isSuccess]
  · intro h
    simp [read_product_verdict, read_product_mark, reportCatchResponse, h]
  · by_cases h : pid = some r <;>
      simp [read_product_verdict, read_product_mark, reportCatchResponse, Verdict.isSuccess, h]

/-- Witness for C2: a mismatched 200 body at expected 3, observed 5. -/
theorem claim_C2_witness :
    read_product_verdict 3 200 (Body.json (some 5))
      = ⟨getName, .failure "Product ID mismatch: expected 3, got 5"⟩
    ∧ (read_product_verdict 3 404 (Body.json none)).isSuccess = true :=
  ⟨(claim_C2 3 (some 5) (Body.json none)).2.2.1 (by decide),
   (claim_C2 3 (some 5) (Body.json none)).2.1⟩

/-- Claim C3: a logged write succeeds exactly on status 204; any other status
records a failure whose reason reports the observed status. -/
theorem claim_C3 (s : Nat) :
    ((create_product_verdict true s).isSuccess = true ↔ s = 204)
    ∧ (s ≠ 204 →
        create_product_verdict true s
          = ⟨postName, .failure ("Expected 204, got " ++ toString s)⟩) := by
  constructor
  · by_cases h : s = 204 <;>
      simp [create_product_verdict, create_product_mark, reportCatchResponse, Verdict.isSuccess, h]
  · intro h
    simp [create_product_verdict, create_product_mark, reportCatchResponse, h]

/-- Witness for C3 at statuses 204 and 500. -/
theorem claim_C3_witness :
    (create_product_verdict true 204).isSuccess = true
    ∧ create_product_verdict true 500
        = ⟨postName, .failure ("Expected 204, got " ++ toString 500)⟩ :=
  ⟨(claim_C3 204).1.mpr rfl, (claim_C3 500).2 (by decide)⟩

/-- Claim C4, evaluated at the failing input: a 200 health check records a
success verdict without raising, but on any non-200 status (503 here) the
task body calls `response.failure` on a plain `requests.Response`, which has
no such method, so the task raises `AttributeError` instead of absorbing the
failure locally. -/
theorem claim_C4 :
    health_check 200 = (⟨"/healthz", .success⟩, none)
    ∧ (health_check 503).1 = ⟨"/healthz", .failure "HTTPError 503"⟩
    ∧ (health_check 503).2
        = some (.attributeError "Response object has no attribute failure") := by
  decide

/-- Claim C5: the task list holds 12 entries, the weights sum to 12, each
behavior occupies exactly its weight in entries, and a uniform draw over the
list selects read with probability 7/12, write with 3/12, and
read-after-write and health-check with 1/12 each. -/
theorem claim_C5 :
    tasksList.length = 12
    ∧ (taskWeights.map Prod.snd).sum = 12
    ∧ tasksList.count TaskName.read_product = 7
    ∧ tasksList.count TaskName.write_product = 3
    ∧ tasksList.count TaskName.read_write_same_product = 1
    ∧ tasksList.count TaskName.health_check = 1
    ∧ ((Finset.univ.filter (fun i : Fin 12 => selectTask i = TaskName.read_product)).card : ℚ) / 12
        = 7 / 12
    ∧ ((Finset.univ.filter (fun i : Fin 12 => selectTask i = TaskName.write_product)).card : ℚ) / 12
        = 3 / 12
    ∧ ((Finset.univ.filter (fun i : Fin 12 => selectTask i = TaskName.read_write_same_product)).card : ℚ) / 12
        = 1 / 12
    ∧ ((Finset.univ.filter (fun i : Fin 12 => selectTask i = TaskName.health_check)).card : ℚ) / 12
        = 1 / 12 := by
  refine ⟨by decide, by decide, by decide, by decide, by decide, by decide, ?_, ?_, ?_, ?_⟩
  · have h : (Finset.univ.filter (fun i : Fin 12 => selectTask i = TaskName.read_product)).card = 7 := by decide
    rw [h]; norm_num
  · have h : (Finset.univ.filter (fun i : Fin 12 => selectTask i = TaskName.write_product)).card = 3 := by decide
    rw [h]; norm_num
  · have h : (Finset.univ.filter (fun i : Fin 12 => selectTask i = TaskName.read_write_same_product)).card = 1 := by decide
    rw [h]; norm_num
  · have h : (Finset.univ.filter (fun i : Fin 12 => selectTask i = TaskName.health_check)).card = 1 := by decide
    rw [h]; norm_num

/-- Counterexample to C6: with the identity stream, the first product id a
user draws is 1 when no other draw preceded it and 2 when one other-user
draw advanced the shared stream first — the per-user draw sequence is not an
independent stream determined by a run seed and the user index, because all
users consume one shared global stream. -/
theorem claim_C6_counterexample :
    pickAfterOthers (fun n => n) 0 = 1
    ∧ pickAfterOthers (fun n => n) 1 = 2
    ∧ pickAfterOthers (fun n => n) 0 ≠ pickAfterOthers (fun n => n) 1 := by
  decide

/-- Claim C6 as amended: all virtual users draw from a single shared global
random stream, and a user draw is determined by the global position reached
in that stream (which other users advance); each draw moves the shared
position forward by one. No per-user stream and no seeding exist in the
source. -/
theorem claim_C6 (stream : Nat → Nat) (k : Nat) :
    pickAfterOthers stream k = PRODUCT_IDS.getD (stream k % 20) 0
    ∧ (read_product_pick ⟨stream, k⟩).2.pos = k + 1 := by
  have hlen : PRODUCT_IDS.length = 20 := by decide
  constructor
  · show PRODUCT_IDS.getD (stream k % PRODUCT_IDS.length) 0 = PRODUCT_IDS.getD (stream k % 20) 0
    rw [hlen]
  · rfl

/-- Counterexample to C7: the failure verdict recorded when the
read-after-write read sees a 404 has reason `Read after write failed: 404`,
which does not contain the phrase `expected existence after write`. -/
theorem claim_C7_counterexample :
    raw_read_verdict 404 = ⟨rawGetName, .failure "Read after write failed: 404"⟩
    ∧ strHasSub "expected existence after write" "Read after write failed: 404" = false := by
  decide

/-- Claim C7 as amended: on any non-200 status of the read-after-write read,
the failure reason is `Read after write failed: ` followed by the observed
status. -/
theorem claim_C7 (s : Nat) :
    s ≠ 200 →
    raw_read_verdict s
      = ⟨rawGetName, .failure ("Read after write failed: " ++ toString s)⟩ := by
  intro h
  simp [raw_read_verdict, raw_read_mark, reportCatchResponse, h]

/-- Witness for C7 at status 404. -/
theorem claim_C7_witness :
    raw_read_verdict 404
      = ⟨rawGetName, .failure ("Read after write failed: " ++ toString 404)⟩ :=
  claim_C7 404 (by decide)

/-- Counterexample to C8: a 200 plain read whose body fails to parse records
the reason `Invalid JSON response`, which does not contain the phrase
`malformed body`. -/
theorem claim_C8_counterexample :
    read_product_verdict 3 200 Body.malformed = ⟨getName, .failure "Invalid JSON response"⟩
    ∧ strHasSub "malformed body" "Invalid JSON response" = false := by
  decide

/-- Claim C8 as amended: a 200 plain read with an unparseable body always
records a failure verdict with reason `Invalid JSON response`. -/
theorem claim_C8 (r : Int) :
    read_product_verdict r 200 Body.malformed
      = ⟨getName, .failure "Invalid JSON response"⟩ := by
  simp [read_product_verdict, read_product_mark, reportCatchResponse]

/-- Claim C9: with a unit draw in `[0, 1]`, the standard profile delay lies
in `[0.5, 2]` and the fast profile delay lies in `[0.1, 0.5]`; each call
evaluates its own fresh draw, so calls whose draws differ produce different
delays (nothing is cached). -/
theorem claim_C9 (u : ℚ) :
    (0 ≤ u → u ≤ 1 → 1/2 ≤ ProductAPIUser.wait_time u ∧ ProductAPIUser.wait_time u ≤ 2)
    ∧ (0 ≤ u → u ≤ 1 →
        1/10 ≤ FastProductAPIUser.wait_time u ∧ FastProductAPIUser.wait_time u ≤ 1/2)
    ∧ (∀ us vs : ℕ → ℚ, ∀ n : ℕ, us n ≠ vs n →
        ProductAPIUser.delays us n ≠ ProductAPIUser.delays vs n)
    ∧ (∀ us vs : ℕ → ℚ, ∀ n : ℕ, us n ≠ vs n →
        FastProductAPIUser.delays us n ≠ FastProductAPIUser.delays vs n) := by
  refine ⟨?_, ?_, ?_, ?_⟩
  · intro h0 h1
    simp only [ProductAPIUser.wait_time, between, pyUniform]
    constructor <;> nlinarith
  · intro h0 h1
    simp only [FastProductAPIUser.wait_time, between, pyUniform]
    constructor <;> nlinarith
  · intro us vs n hne heq
    apply hne
    simp only [ProductAPIUser.delays, ProductAPIUser.wait_time, between, pyUniform] at heq
    linarith
  · intro us vs n hne heq
    apply hne
    simp only [FastProductAPIUser.delays, FastProductAPIUser.wait_time, between, pyUniform] at heq
    linarith

/-- Witness for C9 at the unit draw 0. -/
theorem claim_C9_witness :
    (1/2 ≤ ProductAPIUser.wait_time 0 ∧ ProductAPIUser.wait_time 0 ≤ 2)
    ∧ (1/10 ≤ FastProductAPIUser.wait_time 0 ∧ FastProductAPIUser.wait_time 0 ≤ 1/2) :=
  ⟨(claim_C9 0).1 (by norm_num) (by norm_num),
   (claim_C9 0).2.1 (by norm_num) (by norm_num)⟩

/-- Counterexample to C10: a write issued with `log=False` that receives a
204 still records a verdict, and that verdict is a success — the block is
left unmarked and the `catch_response` default reports the 204 as success. -/
theorem claim_C10_counterexample :
    create_product_verdict false 204 = ⟨postName, .success⟩
    ∧ (create_product_verdict false 204).isSuccess = true := by
  decide

/-- Claim C10 as amended: a `log=False` write leaves a 204 unmarked (the
explicit `success()` call is skipped), but the `catch_response` default then
records the unmarked 204 as a success verdict, so a `log=False` write records
exactly the same verdict as a logged write for every status: success on 204
and an explicit failure naming the observed status otherwise. In particular
the five warm-up writes of `on_start` record the same verdicts as logged
writes would. -/
theorem claim_C10 (s : Nat) (status : Nat → Nat) :
    create_product_mark false 204 = ManualResult.unmarked
    ∧ create_product_verdict false s = create_product_verdict true s
    ∧ ((create_product_verdict false s).isSuccess = true ↔ s = 204)
    ∧ (s ≠ 204 → create_product_verdict false s
        = ⟨postName, .failure ("Expected 204, got " ++ toString s)⟩)
    ∧ on_start_verdicts status
        = on_start_seed_ids.map (fun i => create_product_verdict true (status i)) := by
  have hft : ∀ t : Nat, create_product_verdict false t = create_product_verdict true t := by
    intro t
    by_cases h : t = 204 <;>
      simp [create_product_verdict, create_product_mark, reportCatchResponse,
        statusIsHttpError, h]
  refine ⟨rfl, hft s, ?_, ?_, ?_⟩
  · by_cases h : s = 204 <;>
      simp [create_product_verdict, create_product_mark, reportCatchResponse,
        statusIsHttpError, Verdict.isSuccess, h]
  · intro h
    simp [create_product_verdict, create_product_mark, reportCatchResponse, h]
  · simp only [on_start_verdicts]
    exact List.map_congr_left (fun i _ => hft (status i))

/-- Witness for C10 at statuses 500 and 204. -/
theorem claim_C10_witness :
    create_product_verdict false 500
      = ⟨postName, .failure ("Expected 204, got " ++ toString 500)⟩
    ∧ ((create_product_verdict false 204).isSuccess = true) :=
  ⟨(claim_C10 500 (fun _ => 204)).2.2.2.1 (by decide),
   (claim_C10 204 (fun _ => 204)).2.2.1.mpr rfl⟩

end Locustfile
